import Mathlib

/-!
Verification of the message-processing core of the WhatsApp bot backend.

Embedded source files:
* `services/config-cache.js` — the config cache (`getCachedWhatsAppConfig`,
  `getCachedBusiness`, `getCachedBusinessTone`) as pure state-passing
  functions over a `CacheState`.
* `scripts/db-seed.js` (reliable message-processing manager section) —
  `isMessageProcessed`, `markAsProcessing`, `markAsCompleted`,
  `processWithLock`, `processInBackground`, `logProcessingError`,
  `sendErrorNotification`, and the `processing_errors` upsert.
* `routes/whatsapp-optimized.js` — the `POST /webhook` handler and
  `processMessageFull`.

The asynchronous code is embedded as programs (`Prog`) over a deterministic
model of the Node.js event loop: a machine with a macrotask queue
(`setImmediate` callbacks and I/O completions), a FIFO microtask queue
(promise continuations), and a promise table.  `await` suspends the running
computation and registers it as a waiter; settling a promise moves its
waiters, in registration order, to the end of the microtask queue; the
scheduler drains all microtasks before the next macrotask — exactly the
cooperative scheduling the source relies on.  Storage responses (database
query results, collaborator replies) are modelled as scenario-supplied
promise resolutions arriving as later macrotasks, matching the fact that
the only suspension points in the source are calls into storage, cache
loaders and outbound delivery.
-/

/-- JavaScript-ish runtime values flowing through promises. -/
inductive JVal where
  | undef : JVal
  | bool : Bool → JVal
  | num : Nat → JVal
  | str : String → JVal
  deriving DecidableEq, Repr

/-- Outcome of a settled promise: fulfilled or rejected, each with a value. -/
abbrev Outcome := Except JVal JVal

/-- Observable events of a run: console logs, state mutations of the
module-level singletons, and the calls into storage / WhatsApp delivery
collaborators. -/
inductive Ev where
  | dupInMemory : String → Ev        -- "Message ... is currently being processed - skipping"
  | dupInDb : String → Ev            -- "Message ... already in database - skipping"
  | markedProcessing : String → Ev   -- processingMessages.add(messageId)
  | markedCompleted : String → Ev    -- processingMessages.delete(messageId) via markAsCompleted
  | httpOk : String → Ev             -- res.status(200).send("OK")
  | bgStart : String → Ev            -- "[id] Starting background processing"
  | bgCompleted : String → Ev        -- "[id] Processing completed successfully"
  | bgFailed : String → Ev           -- "[id] Processing failed"
  | waitingForPrevious : String → Ev -- "Waiting for previous message in conversation ..."
  | bodyStart : String → Ev          -- pipeline body entered
  | bodyEnd : String → Ev            -- pipeline body about to return normally
  | noConfig : String → Ev           -- "No WhatsApp configuration found for phone number"
  | noBusiness : String → Ev         -- "Business not found for ID"
  | inactiveBusiness : String → Ev   -- "Business ... is inactive. Skipping."
  | reactionSent : String → Ev       -- markMessageAsRead + sendReaction (typing indicator)
  | persistMessage : String → Ev     -- DatabaseService.saveMessage (incoming message row)
  | classify : String → Ev           -- processTextMessage (intent detection / AI reply)
  | persistReply : String → Ev       -- DatabaseService.saveMessage (AI reply row)
  | sendReply : String → Ev          -- WhatsAppService.sendMessage (the reply)
  | errorLogged : String → Ev        -- processing_errors upsert succeeded
  | errorLogFailed : String → Ev     -- "Failed to log error to database"
  | errorNoticeSent : String → Ev    -- generic failure message delivered to the user
  | errorNoticeFailed : String → Ev  -- "Failed to send error notification to user"
  deriving DecidableEq, Repr

/-- Association-list lookup, mirroring `Map.prototype.get`. -/
def getAssoc {α : Type} (k : String) : List (String × α) → Option α
  | [] => none
  | e :: rest => if e.1 = k then some e.2 else getAssoc k rest

/-- Association-list update, mirroring `Map.prototype.set`: overwrite in
place when the key exists, append otherwise (JS maps keep insertion order). -/
def setAssoc {α : Type} (k : String) (v : α) : List (String × α) → List (String × α)
  | [] => [(k, v)]
  | e :: rest => if e.1 = k then (k, v) :: rest else e :: setAssoc k v rest

/-- Association-list removal, mirroring `Map.prototype.delete`. -/
def eraseAssoc {α : Type} (k : String) (l : List (String × α)) : List (String × α) :=
  l.filter (fun e => !(e.1 = k))

/-! ## Config cache (`services/config-cache.js`)

The `NodeCache` store is modelled as an association list of live, unexpired
entries; all claims about the cache concern calls within one ttl window, so
no expiry event occurs between the modelled calls.  A loader
(`fetchFunction`) is modelled as a function from its invocation index to a
result: `Except Unit (Option V)` — `.error` for a thrown rejection,
`.ok none` for a null/undefined result, `.ok (some v)` for a found record.
The state carries the loader invocation counter `calls` together with the
`stats` counters of the source. -/

structure CacheState (V : Type) where
  entries : List (String × V)
  hits : Nat
  misses : Nat
  errors : Nat
  calls : Nat
  deriving DecidableEq, Repr

/-- Empty cache with zeroed stats. -/
def CacheState.empty (V : Type) : CacheState V :=
  { entries := [], hits := 0, misses := 0, errors := 0, calls := 0 }

/-- `getCachedWhatsAppConfig(phoneNumberId, fetchFunction)`
(config-cache.js lines 26-53).  On a cached entry: `stats.hits++`, return
it.  On a miss: `stats.misses++`, invoke the loader; a truthy result is
cached (`if (config) cache.set(...)`), a null result is returned uncached.
If the loader throws, the `catch` block does `stats.errors++` and then
`return await fetchFunction(phoneNumberId)` — a second direct invocation of
the loader whose result (or rejection) is returned to the caller, uncached. -/
def getCachedWhatsAppConfig {V : Type} (phoneNumberId : String)
    (fetchFunction : Nat → Except Unit (Option V)) (s : CacheState V) :
    Except Unit (Option V) × CacheState V :=
  let cacheKey := "whatsapp_config:" ++ phoneNumberId
  match getAssoc cacheKey s.entries with
  | some v => (.ok (some v), { s with hits := s.hits + 1 })
  | none =>
    let s1 := { s with misses := s.misses + 1, calls := s.calls + 1 }
    match fetchFunction s.calls with
    | .ok config =>
        let s2 := match config with
          | some v => { s1 with entries := setAssoc cacheKey v s1.entries }
          | none => s1
        (.ok config, s2)
    | .error _ =>
        let s2 := { s1 with errors := s1.errors + 1, calls := s1.calls + 1 }
        (fetchFunction s1.calls, s2)

/-- `getCachedBusiness(businessId, fetchFunction)` (config-cache.js lines
58-82); identical structure under the `business:` key namespace. -/
def getCachedBusiness {V : Type} (businessId : String)
    (fetchFunction : Nat → Except Unit (Option V)) (s : CacheState V) :
    Except Unit (Option V) × CacheState V :=
  let cacheKey := "business:" ++ businessId
  match getAssoc cacheKey s.entries with
  | some v => (.ok (some v), { s with hits := s.hits + 1 })
  | none =>
    let s1 := { s with misses := s.misses + 1, calls := s.calls + 1 }
    match fetchFunction s.calls with
    | .ok business =>
        let s2 := match business with
          | some v => { s1 with entries := setAssoc cacheKey v s1.entries }
          | none => s1
        (.ok business, s2)
    | .error _ =>
        let s2 := { s1 with errors := s1.errors + 1, calls := s1.calls + 1 }
        (fetchFunction s1.calls, s2)

/-- `getCachedBusinessTone(businessId, fetchFunction)` (config-cache.js
lines 87-111); identical structure under the `business_tone:` key namespace. -/
def getCachedBusinessTone {V : Type} (businessId : String)
    (fetchFunction : Nat → Except Unit (Option V)) (s : CacheState V) :
    Except Unit (Option V) × CacheState V :=
  let cacheKey := "business_tone:" ++ businessId
  match getAssoc cacheKey s.entries with
  | some v => (.ok (some v), { s with hits := s.hits + 1 })
  | none =>
    let s1 := { s with misses := s.misses + 1, calls := s.calls + 1 }
    match fetchFunction s.calls with
    | .ok tone =>
        let s2 := match tone with
          | some v => { s1 with entries := setAssoc cacheKey v s1.entries }
          | none => s1
        (.ok tone, s2)
    | .error _ =>
        let s2 := { s1 with errors := s1.errors + 1, calls := s1.calls + 1 }
        (fetchFunction s1.calls, s2)

/-! ## The event-loop machine

Deterministic model of a single Node.js process running the
message-processing manager.  `ProcState` holds the module-level singletons
of `scripts/db-seed.js` (the `processingMessages` set, the
`conversationLocks` map, the `stats` counters) plus the event log. -/

/-- Module-level mutable state of `scripts/db-seed.js` plus the trace. -/
structure ProcState where
  processingMessages : List String
  conversationLocks : List (String × Nat)
  processed : Nat
  duplicates : Nat
  errors : Nat
  log : List Ev
  deriving Repr

/-- Fresh process state (module load). -/
def ProcState.init : ProcState :=
  { processingMessages := [], conversationLocks := [],
    processed := 0, duplicates := 0, errors := 0, log := [] }

/-- Asynchronous programs: `ret`/`thro` settle the promise of the running
computation; `act` performs one atomic mutation of `ProcState` between
suspension points; `call f k` invokes an asynchronous function — its body
runs synchronously until it first suspends, and `k` receives the id of its
result promise; `await` suspends on a promise and resumes with its outcome
(a continuation matching on both outcomes models `try`/`catch` around the
`await`, rethrowing on `.error` models an unguarded `await`); `spawnMacro`
is `setImmediate`. -/
inductive Prog where
  | ret : JVal → Prog
  | thro : JVal → Prog
  | act : (ProcState → ProcState × JVal) → (JVal → Prog) → Prog
  | call : Prog → (Nat → Prog) → Prog
  | await : Nat → (Outcome → Prog) → Prog
  | spawnMacro : Prog → Prog → Prog

/-- A promise: pending with an ordered waiter list, or settled.  Each waiter
is the suspended computation's own promise id together with its
continuation. -/
inductive PromEntry where
  | pending : List (Nat × (Outcome → Prog)) → PromEntry
  | settled : Outcome → PromEntry

/-- The whole machine: shared state, promise table (ids are positions),
microtask queue, macrotask queue.  Queue entries pair a computation with
the id of the promise it settles. -/
structure Machine where
  st : ProcState
  promises : List PromEntry
  micro : List (Nat × Prog)
  macroQ : List (Nat × Prog)

/-- Settle promise `pid` with outcome `o`: mark it settled and move its
waiters, in registration order, to the end of the microtask queue. -/
def Machine.settle (m : Machine) (pid : Nat) (o : Outcome) : Machine :=
  match m.promises.get? pid with
  | some (.pending ws) =>
      { m with promises := m.promises.set pid (.settled o),
               micro := m.micro ++ ws.map (fun w => (w.1, w.2 o)) }
  | _ => m

/-- Run one computation synchronously until it completes or suspends,
exactly as a JavaScript async function runs between awaits.  `pid` is the
promise the computation settles.  Fuel only guards recursion; every
modelled run terminates well within it. -/
def runSync : Nat → Machine → Nat → Prog → Machine
  | 0, m, _, _ => m
  | _ + 1, m, pid, .ret v => m.settle pid (.ok v)
  | _ + 1, m, pid, .thro v => m.settle pid (.error v)
  | fuel + 1, m, pid, .act a k =>
      let r := a m.st
      runSync fuel { m with st := r.1 } pid (k r.2)
  | fuel + 1, m, pid, .call f k =>
      let fid := m.promises.length
      let m1 := { m with promises := m.promises ++ [.pending []] }
      let m2 := runSync fuel m1 fid f
      runSync fuel m2 pid (k fid)
  | fuel + 1, m, pid, .spawnMacro body k =>
      let fid := m.promises.length
      let m1 := { m with promises := m.promises ++ [.pending []],
                         macroQ := m.macroQ ++ [(fid, body)] }
      runSync fuel m1 pid k
  | _ + 1, m, pid, .await q k =>
      match m.promises.get? q with
      | some (.settled o) => { m with micro := m.micro ++ [(pid, k o)] }
      | some (.pending ws) =>
          { m with promises := m.promises.set q (.pending (ws ++ [(pid, k)])) }
      | none => m

/-- The event loop: drain the microtask queue; when it is empty, run the
next macrotask; stop when both queues are empty. -/
def drain : Nat → Machine → Machine
  | 0, m => m
  | fuel + 1, m =>
      match m.micro with
      | t :: rest => drain fuel (runSync fuel { m with micro := rest } t.1 t.2)
      | [] =>
        match m.macroQ with
        | t :: rest => drain fuel (runSync fuel { m with macroQ := rest } t.1 t.2)
        | [] => m

/-- Append an event to the log (a `console.log` or an observable call). -/
def emitAct (e : Ev) (s : ProcState) : ProcState × JVal :=
  ({ s with log := s.log ++ [e] }, .undef)

/-- `async () => await f(...)`: the anonymous async wrapper layers the
source puts around the pipeline (`routes/whatsapp-optimized.js` line 96 and
`db-seed.js` line 877); resolves with the body's value, rejects with its
error. -/
def asyncWrap (body : Prog) : Prog :=
  .call body (fun p => .await p (fun o =>
    match o with
    | .ok v => .ret v
    | .error e => .thro e))

/-! ## `scripts/db-seed.js` — the reliable message-processing manager -/

/-- The envelope produced by `WhatsAppService.processIncomingMessage`: the
fields the core reads.  `businessId` is absent on envelopes coming from the
webhook (the parser does not set it), hence the `'unknown'` fallback in the
conversation key. -/
structure MsgData where
  messageId : String
  sender : String
  recipient : String
  businessId : Option String
  deriving DecidableEq, Repr

/-- `isMessageProcessed(messageId)` (db-seed.js lines 780-808) as a machine
program.  `dbE` is the promise of the `pool.query` on the `messages` table;
its fulfillment value is the row count, rejection is a storage error.  The
in-memory check runs synchronously before the query; the `catch` block
returns `false` (fail open). -/
def isMessageProcessedProg (dbE : Nat) (messageId : String) : Prog :=
  .act (fun s =>
      if messageId ∈ s.processingMessages then
        ({ s with duplicates := s.duplicates + 1,
                  log := s.log ++ [.dupInMemory messageId] }, .bool true)
      else (s, .bool false)) (fun memHit =>
  if memHit = .bool true then .ret (.bool true)
  else .await dbE (fun o =>
    match o with
    | .ok (.num rows) =>
        if rows > 0 then
          .act (fun s => ({ s with duplicates := s.duplicates + 1,
                                   log := s.log ++ [.dupInDb messageId] }, .undef))
            (fun _ => .ret (.bool true))
        else .ret (.bool false)
    | .ok _ => .ret (.bool false)
    | .error _ => .ret (.bool false)))

/-- `markAsProcessing(messageId)` (db-seed.js lines 813-820) inside the
machine: adds the id to the `processingMessages` set.  (The 120-second
deletion timer it also registers is modelled separately in `MarkerState`,
where real-time behaviour is the subject.) -/
def markAsProcessingAct (messageId : String) (s : ProcState) : ProcState × JVal :=
  let pm := if messageId ∈ s.processingMessages then s.processingMessages
            else messageId :: s.processingMessages
  ({ s with processingMessages := pm,
            log := s.log ++ [.markedProcessing messageId] }, .undef)

/-- `markAsCompleted(messageId)` (db-seed.js lines 825-827): removes the id
from `processingMessages`; it does not touch the timer. -/
def markAsCompletedAct (messageId : String) (s : ProcState) : ProcState × JVal :=
  let pm := s.processingMessages.filter (fun x => !(x = messageId))
  ({ s with processingMessages := pm,
            log := s.log ++ [.markedCompleted messageId] }, .undef)

/-- `processWithLock(conversationKey, processingFunction)` (db-seed.js
lines 833-862).  Reads the current lock for the key; if present, logs and
awaits it inside `try`/`catch` (both outcomes continue).  Then it invokes
`processingFunction()` — the task body starts running synchronously —
stores the resulting promise as the lock, awaits it; on fulfillment
`stats.processed++`, on rejection `stats.errors++` and rethrow; the
`finally` deletes the key from the map unconditionally. -/
def processWithLockProg (conversationKey : String) (processingFunction : Prog) : Prog :=
  .act (fun s => (s,
      match getAssoc conversationKey s.conversationLocks with
      | some q => .num q
      | none => .undef)) (fun prior =>
  let proceed : Prog :=
    .call processingFunction (fun currentProcessing =>
    .act (fun s =>
      let locks := setAssoc conversationKey currentProcessing s.conversationLocks
      ({ s with conversationLocks := locks }, .undef)) (fun _ =>
    .await currentProcessing (fun o =>
      match o with
      | .ok v =>
          .act (fun s => ({ s with processed := s.processed + 1 }, .undef)) (fun _ =>
          .act (fun s =>
            let locks := eraseAssoc conversationKey s.conversationLocks
            ({ s with conversationLocks := locks }, .undef)) (fun _ =>
          .ret v))
      | .error e =>
          .act (fun s => ({ s with errors := s.errors + 1 }, .undef)) (fun _ =>
          .act (fun s =>
            let locks := eraseAssoc conversationKey s.conversationLocks
            ({ s with conversationLocks := locks }, .undef)) (fun _ =>
          .thro e)))))
  match prior with
  | .num q =>
      .act (emitAct (.waitingForPrevious conversationKey)) (fun _ =>
      .await q (fun _ => proceed))
  | _ => proceed)

/-- `logProcessingError(messageId, error)` (db-seed.js lines 909-925) as a
machine program: the `processing_errors` upsert is a storage call whose
fate is the scenario parameter `dbOk`; its rejection is swallowed by the
inner `catch` (console only), so the function always resolves. -/
def logProcessingErrorProg (dbOk : Bool) (messageId : String) : Prog :=
  .call (if dbOk then .act (emitAct (.errorLogged messageId)) (fun _ => .ret .undef)
         else .thro (.str "dbfail")) (fun pq =>
  .await pq (fun o =>
    match o with
    | .ok _ => .ret .undef
    | .error _ =>
        .act (emitAct (.errorLogFailed messageId)) (fun _ => .ret .undef)))

/-- `sendErrorNotification(messageData)` (db-seed.js lines 930-944): the
apology `WhatsAppService.sendMessage` call, its failure swallowed by the
inner `catch`. -/
def sendErrorNotificationProg (sendOk : Bool) (md : MsgData) : Prog :=
  .call (if sendOk then .act (emitAct (.errorNoticeSent md.messageId)) (fun _ => .ret .undef)
         else .thro (.str "sendfail")) (fun pq =>
  .await pq (fun o =>
    match o with
    | .ok _ => .ret .undef
    | .error _ =>
        .act (emitAct (.errorNoticeFailed md.messageId)) (fun _ => .ret .undef)))

/-- The async arrow `processInBackground(messageData, processingFunction)`
passes to `setImmediate` (db-seed.js lines 870-903): compute the
conversation key, log, run `processWithLock(key, async () => await
processingFunction(messageData))`; on rejection, record the error via
`logProcessingError` (guarded) and notify the user via
`sendErrorNotification` (guarded); in `finally`, `markAsCompleted`. -/
def bgWrapperProg (dbOk sendOk : Bool) (md : MsgData) (processingFunction : Prog) : Prog :=
  let conversationKey := (md.businessId.getD "unknown") ++ ":" ++ md.sender
  .act (emitAct (.bgStart md.messageId)) (fun _ =>
  .call (processWithLockProg conversationKey (asyncWrap processingFunction)) (fun p =>
  .await p (fun o =>
    let fin : Prog := .act (markAsCompletedAct md.messageId) (fun _ => .ret .undef)
    match o with
    | .ok _ => .act (emitAct (.bgCompleted md.messageId)) (fun _ => fin)
    | .error _ =>
        .act (emitAct (.bgFailed md.messageId)) (fun _ =>
        .call (logProcessingErrorProg dbOk md.messageId) (fun pl =>
        .await pl (fun _ =>
        .call (sendErrorNotificationProg sendOk md) (fun pn =>
        .await pn (fun _ => fin))))))))

/-- `processInBackground(messageData, processingFunction)` (db-seed.js
lines 868-904): `setImmediate` the wrapper and return at once. -/
def processInBackgroundProg (dbOk sendOk : Bool) (md : MsgData)
    (processingFunction : Prog) : Prog :=
  .spawnMacro (bgWrapperProg dbOk sendOk md processingFunction) (.ret .undef)

/-! ## `routes/whatsapp-optimized.js` -/

/-- The business row fields the pipeline reads. -/
structure BusinessRec where
  status : String
  deriving DecidableEq, Repr

/-- Scenario-supplied results of the config-cache collaborators inside
`processMessageFull`: the WhatsApp config (its `business_id`) and the
business row. -/
structure PipelineEnv where
  whatsappConfig : Option String
  businessData : Option BusinessRec
  deriving DecidableEq, Repr

/-- `processMessageFull(messageData)` (whatsapp-optimized.js lines
110-227).  Collaborator calls are modelled as immediately-resolving
promises returning the scenario's `env` values; the observable effects are
the emitted events.  Early returns: missing WhatsApp config, missing
business, inactive business — each logs and returns `undefined`
(a fulfillment).  The typing indicator is started and not awaited.  The
active path persists the incoming message row, classifies/responds,
persists the reply row, then delivers the reply. -/
def processMessageFullProg (env : PipelineEnv) (md : MsgData) : Prog :=
  .call (.ret .undef) (fun pc =>
  .await pc (fun _ =>
  match env.whatsappConfig with
  | none => .act (emitAct (.noConfig md.recipient)) (fun _ => .ret .undef)
  | some businessId =>
    .call (.ret .undef) (fun pb =>
    .await pb (fun _ =>
    match env.businessData with
    | none => .act (emitAct (.noBusiness businessId)) (fun _ => .ret .undef)
    | some businessData =>
      if businessData.status = "inactive" then
        .act (emitAct (.inactiveBusiness businessId)) (fun _ => .ret .undef)
      else
        .call (.act (emitAct (.reactionSent md.messageId)) (fun _ => .ret .undef)) (fun _ =>
        .call (.ret (.num 1)) (fun pconv =>
        .await pconv (fun _ =>
        .call (.act (emitAct (.persistMessage md.messageId)) (fun _ => .ret .undef)) (fun ps =>
        .await ps (fun _ =>
        .call (.act (emitAct (.classify md.messageId)) (fun _ => .ret (.str "reply"))) (fun pt =>
        .await pt (fun _ =>
        .call (.act (emitAct (.persistReply md.messageId)) (fun _ => .ret .undef)) (fun pr =>
        .await pr (fun _ =>
        .call (.act (emitAct (.sendReply md.messageId)) (fun _ => .ret .undef)) (fun psend =>
        .await psend (fun _ => .ret .undef)))))))))))))))

/-- The `POST /webhook` handler (whatsapp-optimized.js lines 64-105).
`dbE` is the promise of the duplicate-check query made by
`isMessageProcessed`.  Parse the envelope (collaborator, awaited); await
`isMessageProcessed`; on duplicate, answer 200 and stop; otherwise
`markAsProcessing`, answer 200, and hand the pipeline to
`processInBackground`. -/
def webhookReqProg (dbE : Nat) (dbOk sendOk : Bool) (md : MsgData)
    (pipeline : Prog) : Prog :=
  .call (.ret .undef) (fun pp =>
  .await pp (fun _ =>
  .call (isMessageProcessedProg dbE md.messageId) (fun pd =>
  .await pd (fun o =>
    match o with
    | .ok (.bool true) =>
        .act (emitAct (.httpOk md.messageId)) (fun _ => .ret .undef)
    | _ =>
        .act (markAsProcessingAct md.messageId) (fun _ =>
        .act (emitAct (.httpOk md.messageId)) (fun _ =>
        processInBackgroundProg dbOk sendOk md (asyncWrap pipeline)))))))


/-! ## Scenarios

Each scenario fixes a concrete arrival order of webhook deliveries /
`setImmediate` callbacks (the initial macrotask queue) and of I/O
completions (macrotasks settling the pre-allocated storage promises).
JavaScript execution is deterministic given this order, so each scenario
has exactly one trace, computed by `drain`. -/

/-- Build a machine with `nproms` pre-allocated pending promises and the
given macrotask queue. -/
def mkMachine (nproms : Nat) (q : List (Nat × Prog)) : Machine :=
  { st := ProcState.init, promises := List.replicate nproms (.pending []),
    micro := [], macroQ := q }

/-- Number of occurrences of an event in a trace. -/
def countEv (e : Ev) (l : List Ev) : Nat :=
  (l.filter (fun x => x = e)).length

/-- Position of the first occurrence of an event in a trace (length when
absent). -/
def idxOf (e : Ev) : List Ev → Nat
  | [] => 0
  | x :: rest => if x = e then 0 else idxOf e rest + 1

/-- A generic background task body: log entry, perform one I/O call
(awaiting promise `e`), log normal completion; a rejected I/O call makes
the body throw. -/
def taskBodyProg (i : String) (e : Nat) : Prog :=
  .act (emitAct (.bodyStart i)) (fun _ =>
  .await e (fun o =>
    match o with
    | .ok _ => .act (emitAct (.bodyEnd i)) (fun _ => .ret .undef)
    | .error err => .thro err))

/-- Envelope of message `m1` from sender `a`. -/
def mdA : MsgData :=
  { messageId := "m1", sender := "a", recipient := "biz", businessId := none }

/-- Envelope of message `m2` from the same sender `a`. -/
def mdB : MsgData :=
  { messageId := "m2", sender := "a", recipient := "biz", businessId := none }

/-- Envelope of message `m3` from the same sender `a`. -/
def mdC : MsgData :=
  { messageId := "m3", sender := "a", recipient := "biz", businessId := none }

/-- Three messages of one conversation (key `unknown:a`) whose background
wrappers are enqueued in order `m1`, `m2`, `m3` in one tick; each task body
performs one I/O call (promises 0, 1, 2), and the I/O completions arrive in
the same order afterwards.  Promises 3-5 belong to the three `setImmediate`
callbacks. -/
def seqScenario : Machine :=
  mkMachine 6
    [ (3, bgWrapperProg true true mdA (taskBodyProg "m1" 0)),
      (4, bgWrapperProg true true mdB (taskBodyProg "m2" 1)),
      (5, bgWrapperProg true true mdC (taskBodyProg "m3" 2)),
      (0, .ret .undef), (1, .ret .undef), (2, .ret .undef) ]

/-- `seqScenario` cut after the first I/O completion: `m1`'s task has
settled, `m2`'s and `m3`'s bodies have both started and are awaiting their
I/O. -/
def seqScenarioA : Machine :=
  mkMachine 6
    [ (3, bgWrapperProg true true mdA (taskBodyProg "m1" 0)),
      (4, bgWrapperProg true true mdB (taskBodyProg "m2" 1)),
      (5, bgWrapperProg true true mdC (taskBodyProg "m3" 2)),
      (0, .ret .undef) ]

/-- `seqScenario` cut after the second I/O completion: `m2`'s task has
settled while `m3`'s is still in flight. -/
def seqScenarioB : Machine :=
  mkMachine 6
    [ (3, bgWrapperProg true true mdA (taskBodyProg "m1" 0)),
      (4, bgWrapperProg true true mdB (taskBodyProg "m2" 1)),
      (5, bgWrapperProg true true mdC (taskBodyProg "m3" 2)),
      (0, .ret .undef), (1, .ret .undef) ]

/-- Config/business rows for an active business. -/
def activeEnv : PipelineEnv :=
  { whatsappConfig := some "7", businessData := some { status := "active" } }

/-- Two webhook deliveries of the same external id `m1`, the second
arriving while the first's durable duplicate-check query (promise 0) is
still in flight; the second's query is promise 1.  Both queries truthfully
report zero existing rows (no pipeline has run yet when they resolve).
Promises 2 and 3 belong to the two request handlers. -/
def dupScenario : Machine :=
  mkMachine 4
    [ (2, webhookReqProg 0 true true mdA (processMessageFullProg activeEnv mdA)),
      (3, webhookReqProg 1 true true mdA (processMessageFullProg activeEnv mdA)),
      (0, .ret (.num 0)), (1, .ret (.num 0)) ]

/-- One webhook delivery of `m1`; the duplicate-check query (promise 0)
finds no row; the pipeline body performs one I/O call (promise 1) that
either fulfills or rejects (`pOk`); the error-record upsert and the user
notification succeed or fail per `lOk` and `nOk`. -/
def settleScenario (pOk lOk nOk : Bool) : Machine :=
  mkMachine 3
    [ (2, webhookReqProg 0 lOk nOk mdA (taskBodyProg "m1" 1)),
      (0, .ret (.num 0)),
      (1, if pOk then .ret .undef else .thro (.str "boom")) ]

/-- One webhook delivery of `m1` running the full pipeline against the
given configuration rows; the duplicate-check query is promise 0. -/
def dropScenario (env : PipelineEnv) : Machine :=
  mkMachine 2
    [ (1, webhookReqProg 0 true true mdA (processMessageFullProg env mdA)),
      (0, .ret (.num 0)) ]

/-- No WhatsApp configuration exists for the recipient number. -/
def envNoCfg : PipelineEnv := { whatsappConfig := none, businessData := none }

/-- Config found, but the business row is absent. -/
def envNoBiz : PipelineEnv := { whatsappConfig := some "7", businessData := none }

/-- Config and business found, but the business is inactive. -/
def envInactive : PipelineEnv :=
  { whatsappConfig := some "7", businessData := some { status := "inactive" } }

/-- One background task of `m1` alone; its body's I/O (promise 0) fulfills
or rejects per `pOk`. -/
def soloScenario (pOk : Bool) : Machine :=
  mkMachine 2
    [ (1, bgWrapperProg true true mdA (taskBodyProg "m1" 0)),
      (0, if pOk then .ret .undef else .thro (.str "x")) ]

/-- The three silently-dropped configurations of `processMessageFull`. -/
def dropEnvs : List PipelineEnv := [envNoCfg, envNoBiz, envInactive]

/-! ## Pure models of the remaining `scripts/db-seed.js` functions -/

/-- `isMessageProcessed(messageId)` (db-seed.js lines 780-808) as a
function of one call's inputs: the in-memory `processingMessages` set and
the durable lookup's result (`.ok n` = row count found by the query on the
`messages` table, `.error` = the query rejected).  The in-memory check runs
first; the `catch` block converts a storage error into `false` (fail open),
so the function is total — no error reaches the caller.  The second
component is the updated `stats.duplicates` counter. -/
def isMessageProcessed (processingMessages : List String) (messageId : String)
    (dbResult : Except Unit Nat) (duplicates : Nat) : Bool × Nat :=
  if messageId ∈ processingMessages then (true, duplicates + 1)
  else
    match dbResult with
    | .ok rows => if rows > 0 then (true, duplicates + 1) else (false, duplicates)
    | .error _ => (false, duplicates)

/-- One row of the `processing_errors` table (schema created by
`ensureErrorTableExists`, db-seed.js lines 967-984: `message_id` unique,
`retry_count INTEGER DEFAULT 0`). -/
structure ErrorRecord where
  errorMessage : String
  errorStack : String
  retryCount : Nat
  deriving DecidableEq, Repr

/-- `logProcessingError(messageId, error)` (db-seed.js lines 909-925): the
`INSERT ... ON CONFLICT (message_id) DO UPDATE` upsert.  A fresh row takes
the column default `retry_count = 0` (the INSERT names no retry_count
column); on conflict the row's message and stack are overwritten and
`retry_count` is incremented by one.  `dbFails` models the query rejecting:
the surrounding `catch` only writes to the console, so the table is
unchanged and no error escapes — the function is total. -/
def logProcessingError (table : List (String × ErrorRecord)) (messageId : String)
    (errorMessage errorStack : String) (dbFails : Bool) :
    List (String × ErrorRecord) :=
  if dbFails then table
  else
    match getAssoc messageId table with
    | none =>
        setAssoc messageId
          { errorMessage := errorMessage, errorStack := errorStack, retryCount := 0 } table
    | some r =>
        setAssoc messageId
          { errorMessage := errorMessage, errorStack := errorStack,
            retryCount := r.retryCount + 1 } table

/-- `retry_count` of an id: the stored value, or 0 when no row exists (the
value a fresh insert would take). -/
def retryCountOf (table : List (String × ErrorRecord)) (messageId : String) : Nat :=
  match getAssoc messageId table with
  | none => 0
  | some r => r.retryCount

/-! ## Acceptance markers with their deletion timers

Real-time model of `markAsProcessing` / `markAsCompleted` (db-seed.js
lines 813-827).  Times are milliseconds. -/

/-- The in-memory acceptance-marker set together with the pending
`setTimeout` deletions registered by `markAsProcessing`; each timer is a
pair (messageId, fireTime). -/
structure MarkerState where
  processingMessages : List String
  timers : List (String × Nat)
  deriving DecidableEq, Repr

/-- `markAsProcessing(messageId)` called at time `now`: add the id to the
set and register `setTimeout(() => processingMessages.delete(messageId),
120000)`. -/
def markAsProcessing (now : Nat) (messageId : String) (s : MarkerState) : MarkerState :=
  let pm := if messageId ∈ s.processingMessages then s.processingMessages
            else messageId :: s.processingMessages
  { processingMessages := pm, timers := s.timers ++ [(messageId, now + 120000)] }

/-- `markAsCompleted(messageId)`: delete the id from the set.  The source
stores no timer handle and contains no `clearTimeout`, so the pending
timers are untouched. -/
def markAsCompleted (messageId : String) (s : MarkerState) : MarkerState :=
  { s with processingMessages := s.processingMessages.filter (fun x => !(x = messageId)) }

/-- Fire every timer due at or before `t`, in registration order: each
callback runs unconditionally and deletes its id from the set. -/
def fireTimersUpTo (t : Nat) (s : MarkerState) : MarkerState :=
  { processingMessages :=
      (s.timers.filter (fun tm => tm.2 ≤ t)).foldl
        (fun pm tm => pm.filter (fun x => !(x = tm.1))) s.processingMessages,
    timers := s.timers.filter (fun tm => !(tm.2 ≤ t)) }

/-- A timed call to the marker API. -/
inductive MarkerOp where
  | accept : String → MarkerOp
  | complete : String → MarkerOp
  deriving DecidableEq, Repr

/-- Run a time-ordered sequence of marker calls, firing due timers before
each call, then fire everything due by `tEnd`. -/
def runMarkers (ops : List (Nat × MarkerOp)) (tEnd : Nat) : MarkerState :=
  let step := fun (s : MarkerState) (op : Nat × MarkerOp) =>
    let s1 := fireTimersUpTo op.1 s
    match op.2 with
    | .accept id => markAsProcessing op.1 id s1
    | .complete id => markAsCompleted id s1
  fireTimersUpTo tEnd (ops.foldl step { processingMessages := [], timers := [] })

/-- A loader that throws on its first invocation and succeeds on the
second. -/
def flakyFetch : Nat → Except Unit (Option Nat) :=
  fun n => if n = 0 then .error () else .ok (some 42)

/-! ## Theorems -/

/-- Looking up a key just written finds the written value. -/
theorem getAssoc_setAssoc_self {α : Type} (k : String) (v : α)
    (l : List (String × α)) : getAssoc k (setAssoc k v l) = some v := by
  induction l with
  | nil => simp [setAssoc, getAssoc]
  | cons e rest ih =>
      by_cases h : e.1 = k <;> simp [setAssoc, getAssoc, h, ih]

/-- C5: three calls of the getter for one key within the ttl window, with a
loader that succeeds (returns a record) on the first call, invoke the
loader exactly once (the invocation counter rises by one in total) and
return that same record all three times; the first call increments the
miss counter, the second and third each increment the hit counter. -/
theorem cache_three_calls_one_load {V : Type} (p : String)
    (fetchFunction : Nat → Except Unit (Option V)) (s0 : CacheState V) (v : V)
    (hmiss : getAssoc ("whatsapp_config:" ++ p) s0.entries = none)
    (hfetch : fetchFunction s0.calls = .ok (some v)) :
    (getCachedWhatsAppConfig p fetchFunction s0).1 = .ok (some v) ∧
    (getCachedWhatsAppConfig p fetchFunction
      (getCachedWhatsAppConfig p fetchFunction s0).2).1 = .ok (some v) ∧
    (getCachedWhatsAppConfig p fetchFunction
      (getCachedWhatsAppConfig p fetchFunction
        (getCachedWhatsAppConfig p fetchFunction s0).2).2).1 = .ok (some v) ∧
    (getCachedWhatsAppConfig p fetchFunction
      (getCachedWhatsAppConfig p fetchFunction
        (getCachedWhatsAppConfig p fetchFunction s0).2).2).2.calls = s0.calls + 1 ∧
    (getCachedWhatsAppConfig p fetchFunction s0).2.misses = s0.misses + 1 ∧
    (getCachedWhatsAppConfig p fetchFunction
      (getCachedWhatsAppConfig p fetchFunction s0).2).2.hits =
      (getCachedWhatsAppConfig p fetchFunction s0).2.hits + 1 ∧
    (getCachedWhatsAppConfig p fetchFunction
      (getCachedWhatsAppConfig p fetchFunction
        (getCachedWhatsAppConfig p fetchFunction s0).2).2).2.hits =
      (getCachedWhatsAppConfig p fetchFunction
        (getCachedWhatsAppConfig p fetchFunction s0).2).2.hits + 1 := by
  simp [getCachedWhatsAppConfig, hmiss, hfetch, getAssoc_setAssoc_self]

/-- C4 (amended): when the loader throws on a cache miss, each getter
increments the error counter and caches nothing, but does not propagate
that error: its catch block invokes the loader a second time directly and
returns that second result to the caller, uncached. -/
theorem cache_loader_failure_fallback {V : Type} (p : String)
    (f : Nat → Except Unit (Option V)) (s : CacheState V)
    (hm1 : getAssoc ("whatsapp_config:" ++ p) s.entries = none)
    (hm2 : getAssoc ("business:" ++ p) s.entries = none)
    (hm3 : getAssoc ("business_tone:" ++ p) s.entries = none)
    (hf : f s.calls = .error ()) :
    getCachedWhatsAppConfig p f s =
      (f (s.calls + 1),
       { s with misses := s.misses + 1, errors := s.errors + 1, calls := s.calls + 2 }) ∧
    getCachedBusiness p f s =
      (f (s.calls + 1),
       { s with misses := s.misses + 1, errors := s.errors + 1, calls := s.calls + 2 }) ∧
    getCachedBusinessTone p f s =
      (f (s.calls + 1),
       { s with misses := s.misses + 1, errors := s.errors + 1, calls := s.calls + 2 }) := by
  refine ⟨?_, ?_, ?_⟩ <;>
    simp [getCachedWhatsAppConfig, getCachedBusiness, getCachedBusinessTone,
      hm1, hm2, hm3, hf]

theorem cache_loader_failure_fallback_witness :
    getCachedWhatsAppConfig "1" (fun _ => .error ()) (CacheState.empty Nat) =
      (.error (),
       { entries := [], hits := 0, misses := 1, errors := 1, calls := 2 }) :=
  (cache_loader_failure_fallback "1" (fun _ => .error ()) (CacheState.empty Nat)
    rfl rfl rfl rfl).1

/-- C4 (counterexample): a loader that throws on its first invocation and
returns a record on the second: the getter returns that record, not the
thrown error — the loader's error is not propagated to the caller. -/
theorem cache_loader_error_not_propagated :
    (getCachedWhatsAppConfig "p" flakyFetch (CacheState.empty Nat)).1 = .ok (some 42) ∧
    (getCachedWhatsAppConfig "p" flakyFetch (CacheState.empty Nat)).2.errors = 1 ∧
    (getCachedWhatsAppConfig "p" flakyFetch (CacheState.empty Nat)).2.entries = [] :=
  ⟨rfl, rfl, rfl⟩

theorem cache_three_calls_one_load_witness :
    (getCachedWhatsAppConfig "1" (fun _ => .ok (some 5)) (CacheState.empty Nat)).1
      = .ok (some 5) ∧
    (getCachedWhatsAppConfig "1" (fun _ => .ok (some 5))
      (getCachedWhatsAppConfig "1" (fun _ => .ok (some 5)) (CacheState.empty Nat)).2).1
      = .ok (some 5) ∧
    (getCachedWhatsAppConfig "1" (fun _ => .ok (some 5))
      (getCachedWhatsAppConfig "1" (fun _ => .ok (some 5))
        (getCachedWhatsAppConfig "1" (fun _ => .ok (some 5)) (CacheState.empty Nat)).2).2).1
      = .ok (some 5) ∧
    (getCachedWhatsAppConfig "1" (fun _ => .ok (some 5))
      (getCachedWhatsAppConfig "1" (fun _ => .ok (some 5))
        (getCachedWhatsAppConfig "1" (fun _ => .ok (some 5)) (CacheState.empty Nat)).2).2).2.calls
      = (CacheState.empty Nat).calls + 1 := by
  have h := cache_three_calls_one_load "1" (fun _ => .ok (some 5))
    (CacheState.empty Nat) 5 rfl rfl
  exact ⟨h.1, h.2.1, h.2.2.1, h.2.2.2.1⟩

/-- C7: when the in-memory set does not contain the id and the durable
lookup rejects, `isMessageProcessed` fails open: it returns `false`, leaves
the duplicate counter unchanged, and no error reaches the caller (the
function is total). -/
theorem dup_check_fails_open (mem : List String) (messageId : String) (d : Nat)
    (hmem : messageId ∉ mem) :
    isMessageProcessed mem messageId (.error ()) d = (false, d) := by
  simp [isMessageProcessed, hmem]

theorem dup_check_fails_open_witness :
    isMessageProcessed ["m2"] "m1" (.error ()) 7 = (false, 7) :=
  dup_check_fails_open ["m2"] "m1" 7 (by simp)

/-- C8: the error-record upsert creates a row with `retry_count = 0` when
none exists, increments `retry_count` by exactly one on conflict, never
decreases it, and on a storage failure of the upsert itself leaves the
table unchanged without re-raising (the function is total). -/
theorem error_record_retry_count (table : List (String × ErrorRecord))
    (messageId errorMessage errorStack : String) (r : ErrorRecord) :
    (logProcessingError table messageId errorMessage errorStack true = table) ∧
    (getAssoc messageId table = none →
      retryCountOf (logProcessingError table messageId errorMessage errorStack false)
        messageId = 0) ∧
    (getAssoc messageId table = some r →
      retryCountOf (logProcessingError table messageId errorMessage errorStack false)
        messageId = r.retryCount + 1) ∧
    (∀ dbFails : Bool,
      retryCountOf table messageId ≤
        retryCountOf (logProcessingError table messageId errorMessage errorStack dbFails)
          messageId) := by
  refine ⟨by simp [logProcessingError], ?_, ?_, ?_⟩
  · intro h
    simp [logProcessingError, h, retryCountOf, getAssoc_setAssoc_self]
  · intro h
    simp [logProcessingError, h, retryCountOf, getAssoc_setAssoc_self]
  · intro dbFails
    cases dbFails with
    | true => simp [logProcessingError]
    | false =>
        cases h : getAssoc messageId table with
        | none => simp [logProcessingError, h, retryCountOf, getAssoc_setAssoc_self]
        | some r2 =>
            simp [logProcessingError, h, retryCountOf, getAssoc_setAssoc_self]

theorem error_record_retry_count_witness :
    retryCountOf
      (logProcessingError
        [("m1", { errorMessage := "a", errorStack := "b", retryCount := 3 })]
        "m1" "x" "y" false) "m1" = 4 :=
  (error_record_retry_count
    [("m1", { errorMessage := "a", errorStack := "b", retryCount := 3 })]
    "m1" "x" "y" { errorMessage := "a", errorStack := "b", retryCount := 3 }).2.2.1 rfl

/-- C1 (violation witnessed): three tasks of one conversation key enqueued
in order m1, m2, m3.  Once m1's task settles, the m2 and m3 continuations
— both parked on the same captured lock promise — resume back to back:
m3's body starts (log position 8) while m2 is neither finished (bodyEnd m2
at position 11) nor settled (bgCompleted m2 at position 12), so tasks of
one key overlap instead of executing strictly sequentially. -/
theorem same_key_tasks_overlap :
    (drain 100 seqScenario).st.log =
      [.bgStart "m1", .bodyStart "m1", .bgStart "m2",
       .waitingForPrevious "unknown:a", .bgStart "m3",
       .waitingForPrevious "unknown:a", .bodyEnd "m1", .bodyStart "m2",
       .bodyStart "m3", .bgCompleted "m1", .markedCompleted "m1",
       .bodyEnd "m2", .bgCompleted "m2", .markedCompleted "m2",
       .bodyEnd "m3", .bgCompleted "m3", .markedCompleted "m3"] ∧
    idxOf (.bodyStart "m3") (drain 100 seqScenario).st.log <
      idxOf (.bodyEnd "m2") (drain 100 seqScenario).st.log ∧
    idxOf (.bodyStart "m3") (drain 100 seqScenario).st.log <
      idxOf (.bgCompleted "m2") (drain 100 seqScenario).st.log ∧
    (drain 100 seqScenario).st.processed = 3 := by
  decide

/-- C2 (violation witnessed): the same external id delivered twice, the
second arriving while the first's durable duplicate check is in flight.
Both requests pass the filter (the in-memory marker is only set after the
awaited query returns), both acknowledge 200, and both run the full
pipeline: two message-row writes, two classifications, two replies for one
id, and the duplicate counter never moves. -/
theorem concurrent_duplicate_double_execution :
    countEv (.markedProcessing "m1") (drain 100 dupScenario).st.log = 2 ∧
    countEv (.httpOk "m1") (drain 100 dupScenario).st.log = 2 ∧
    countEv (.persistMessage "m1") (drain 100 dupScenario).st.log = 2 ∧
    countEv (.classify "m1") (drain 100 dupScenario).st.log = 2 ∧
    countEv (.sendReply "m1") (drain 100 dupScenario).st.log = 2 ∧
    (drain 100 dupScenario).st.processed = 2 ∧
    (drain 100 dupScenario).st.duplicates = 0 := by
  decide

/-- C3: whatever the pipeline's outcome (`pOk`), and whether or not the
error-record upsert (`lOk`) and the user notification (`nOk`) themselves
fail, the background wrapper's finally block calls `markAsCompleted`
exactly once, as the last action of the run, and the in-memory marker set
ends empty. -/
theorem marker_cleared_exactly_once (pOk lOk nOk : Bool) :
    countEv (.markedCompleted "m1") (drain 100 (settleScenario pOk lOk nOk)).st.log = 1 ∧
    (drain 100 (settleScenario pOk lOk nOk)).st.log.getLast? =
      some (.markedCompleted "m1") ∧
    (drain 100 (settleScenario pOk lOk nOk)).st.processingMessages = [] := by
  revert pOk lOk nOk
  decide

/-- C6 (counterexample): in the three-task run, after m1 settles the
mapping holds m3's tail (promise 13, written when m3's body was chained)
and m2 is still unsettled (scenario A).  When m2 then settles (scenario B),
its finally removes the key although the mapping still pointed at m3's
newer entry and m3 is still in flight — the conditional removal the claim
describes does not happen. -/
theorem lock_entry_removed_despite_newer_task :
    (drain 100 seqScenarioA).st.conversationLocks = [("unknown:a", 13)] ∧
    countEv (.bodyStart "m3") (drain 100 seqScenarioA).st.log = 1 ∧
    countEv (.markedCompleted "m2") (drain 100 seqScenarioA).st.log = 0 ∧
    (drain 100 seqScenarioB).st.conversationLocks = [] ∧
    countEv (.markedCompleted "m2") (drain 100 seqScenarioB).st.log = 1 ∧
    countEv (.markedCompleted "m3") (drain 100 seqScenarioB).st.log = 0 := by
  decide

/-- C6 (amended): after a task for key k settles, `processWithLock`'s
finally removes k from the mapping unconditionally — after a lone task
(fulfilled or rejected) the mapping is empty, and in the three-task run the
removal happens even though the mapping held the newer m3 entry and m3 was
still running. -/
theorem lock_entry_removed_unconditionally (pOk : Bool) :
    (drain 100 (soloScenario pOk)).st.conversationLocks = [] ∧
    countEv (.markedCompleted "m1") (drain 100 (soloScenario pOk)).st.log = 1 ∧
    (drain 100 seqScenarioB).st.conversationLocks = [] ∧
    countEv (.markedCompleted "m3") (drain 100 seqScenarioB).st.log = 0 := by
  revert pOk
  decide

/-- C9: when the WhatsApp config is missing, the business row is missing,
or the business is inactive, the accepted message is dropped silently: the
pipeline returns early without throwing — no message row, no reply row, no
delivery, no error record, no user notification — while the acceptance
marker is still cleared exactly once and the processed counter still rises. -/
theorem missing_config_drops_silently :
    ∀ i : Fin dropEnvs.length,
    countEv (.persistMessage "m1") (drain 100 (dropScenario (dropEnvs.get i))).st.log = 0 ∧
    countEv (.persistReply "m1") (drain 100 (dropScenario (dropEnvs.get i))).st.log = 0 ∧
    countEv (.sendReply "m1") (drain 100 (dropScenario (dropEnvs.get i))).st.log = 0 ∧
    countEv (.reactionSent "m1") (drain 100 (dropScenario (dropEnvs.get i))).st.log = 0 ∧
    countEv (.errorLogged "m1") (drain 100 (dropScenario (dropEnvs.get i))).st.log = 0 ∧
    countEv (.errorNoticeSent "m1") (drain 100 (dropScenario (dropEnvs.get i))).st.log = 0 ∧
    countEv (.markedCompleted "m1") (drain 100 (dropScenario (dropEnvs.get i))).st.log = 1 ∧
    (drain 100 (dropScenario (dropEnvs.get i))).st.processed = 1 ∧
    (drain 100 (dropScenario (dropEnvs.get i))).st.errors = 0 ∧
    (drain 100 (dropScenario (dropEnvs.get i))).st.processingMessages = [] := by
  decide

/-- C10: the 120-second deletion timer registered by `markAsProcessing` is
never cancelled — `markAsCompleted` leaves it pending — and fires
unconditionally: a marker with no completion is gone 120000 ms after
acceptance, and a stale timer from an acceptance at time 0 deletes the
marker of a re-acceptance made at 60000 ms already at 120000 ms, 60 seconds
before that re-acceptance's own timer at 180000 ms. -/
theorem marker_timer_never_cancelled :
    (runMarkers [(0, .accept "m1"), (50, .complete "m1")] 119999).timers =
      [("m1", 120000)] ∧
    (runMarkers [(0, .accept "m1")] 119999).processingMessages = ["m1"] ∧
    (runMarkers [(0, .accept "m1")] 120000).processingMessages = [] ∧
    (runMarkers [(0, .accept "m1"), (50, .complete "m1"),
      (60000, .accept "m1")] 119999).processingMessages = ["m1"] ∧
    (runMarkers [(0, .accept "m1"), (50, .complete "m1"),
      (60000, .accept "m1")] 120000).processingMessages = [] ∧
    (runMarkers [(0, .accept "m1"), (50, .complete "m1"),
      (60000, .accept "m1")] 120000).timers = [("m1", 180000)] := by
  decide
